import Mathlib

/-!
Verification development for the KWS data-collection front-end.

The development shallowly embeds the audio-processing core of the repository:

* `src/utils/audioUtils.ts` (the file `unnamed/part_004`): mono downmix,
  fixed-ratio resampling, fixed-length normalization, and 16-bit PCM WAV
  encoding (`convertBlobTo16kMonoWav` and its helpers);
* `src/utils/gate.ts`: the speech-presence gate `analyzePcmForSpeechGate`;
* `src/hooks/useRecorder.ts` (the file `unnamed/part_000`): the
  `startRecording` double-start guard and the elapsed-time updates.

Modelling conventions:

* Audio samples (JS `Float32Array` entries) are embedded as exact rationals
  (`ℚ`); sequential loops over sample buffers become folds over `List ℚ`.
* Browser platform calls that are not part of the repository are abstracted
  as explicit parameters: `decodeAudioData` becomes a `DecodedBuffer` input,
  and the `OfflineAudioContext` rendering inside `resampleTo16k` becomes a
  `render` function parameter (the Web Audio contract that rendering yields
  exactly the configured number of frames appears as a hypothesis).
* The numeric thresholds of the gate are imported by `gate.ts` from
  `gateConfig.ts`, a file that is not part of the sources; they are
  therefore kept as fields of an explicit `GateConfig` parameter, and every
  gate theorem is proved for all configurations.
* `Math.sqrt` comparisons: the source computes `rms = Math.sqrt(meanSquare)`
  and only ever compares it against non-negative thresholds `t`.  Since
  `Real.sqrt x < t ↔ x < t^2` for `0 ≤ x`, `0 ≤ t` (see
  `sqrt_lt_iff_mul_self_lt` below), the embedding stores the mean square
  (`rmsSq`) and translates every comparison `rms < t` to `rmsSq < t * t`
  (and `rms ≥ t` to `t * t ≤ rmsSq`).
* `Math.round` on a rational is Mathlib's `round` (both are `⌊x + 1/2⌋`);
  the truncation performed by `DataView.setInt16` (ECMAScript `ToInt16`)
  is truncation toward zero followed by reduction mod 2^16.
-/

/-- Source line 1 of audioUtils: `const TARGET_SAMPLE_RATE = 16000`. -/
def TARGET_SAMPLE_RATE : ℕ := 16000

/-- Source line 2 of audioUtils: `const TARGET_DURATION_MS = 2000`. -/
def TARGET_DURATION_MS : ℕ := 2000

/-- Source line 3 of audioUtils:
`const TARGET_SAMPLE_COUNT = (TARGET_SAMPLE_RATE * TARGET_DURATION_MS) / 1000`. -/
def TARGET_SAMPLE_COUNT : ℕ := TARGET_SAMPLE_RATE * TARGET_DURATION_MS / 1000

/-- A decoded `AudioBuffer` as handed back by `decodeAudioData`: the per
channel sample data, the frame count (`buffer.length`) and the native
sample rate.  Decoding itself is a browser API and is not embedded; the
pipeline is verified for every decoded buffer. -/
structure DecodedBuffer where
  channels : List (List ℚ)
  frames : ℕ
  sampleRate : ℚ

/-- Source lines 20-39 of audioUtils (`mixToMono`): a single-channel buffer
passes through as `getChannelData(0)`; otherwise every output frame is the
arithmetic mean of all channels at that frame index. -/
def mixToMono (buffer : DecodedBuffer) : List ℚ :=
  if buffer.channels.length ≤ 1 then
    buffer.channels.getD 0 []
  else
    (List.range buffer.frames).map
      (fun frame =>
        ((buffer.channels.map (fun channel => channel.getD frame 0)).sum) /
          (buffer.channels.length : ℚ))

/-- Source line 46 of audioUtils:
`Math.max(1, Math.round((input.length * TARGET_SAMPLE_RATE) / sampleRate))`.
A negative rounded value is clamped by `Int.toNat` exactly as `Math.max(1, ·)`
clamps it to 1. -/
def resampleTargetLength (inputLength : ℕ) (sampleRate : ℚ) : ℕ :=
  (max 1 (round (((inputLength : ℚ) * (TARGET_SAMPLE_RATE : ℚ)) / sampleRate))).toNat

/-- Source lines 41-58 of audioUtils (`resampleTo16k`): a native rate equal to
the target rate returns the input unchanged; otherwise the input is played
through an `OfflineAudioContext` configured with `resampleTargetLength`
frames.  The browser rendering step is abstracted by the `render` parameter,
which receives the configured frame count. -/
def resampleTo16k (render : ℕ → List ℚ) (input : List ℚ) (sampleRate : ℚ) : List ℚ :=
  if sampleRate = (TARGET_SAMPLE_RATE : ℚ) then
    input
  else
    render (resampleTargetLength input.length sampleRate)

/-- Source line 100 of audioUtils: `Math.max(-1, Math.min(1, samples[index]))`. -/
def clampSample (s : ℚ) : ℚ := max (-1) (min 1 s)

/-- Truncation toward zero, the integer conversion performed by
`DataView.setInt16` (ECMAScript `ToIntegerOrInfinity`). -/
def truncTowardZero (q : ℚ) : ℤ := if q < 0 then -(Int.floor (-q)) else Int.floor q

/-- Source line 101 of audioUtils:
`const pcm = sample < 0 ? sample * 0x8000 : sample * 0x7fff`, applied to the
clamped sample and converted to the integer actually stored by `setInt16`. -/
def pcm16OfSample (s : ℚ) : ℤ :=
  truncTowardZero (if clampSample s < 0 then clampSample s * 32768 else clampSample s * 32767)

/-- Little-endian bytes written by `DataView.setUint16(offset, value, true)`. -/
def u16le (v : ℕ) : List ℕ := [v % 256, v / 256 % 256]

/-- Little-endian bytes written by `DataView.setUint32(offset, value, true)`. -/
def u32le (v : ℕ) : List ℕ :=
  [v % 256, v / 256 % 256, v / 65536 % 256, v / 16777216 % 256]

/-- Little-endian bytes written by `DataView.setInt16(offset, value, true)`:
the value is reduced mod 2^16 and stored as its unsigned 16-bit pattern. -/
def i16le (v : ℤ) : List ℕ := u16le (v % 65536).toNat

/-- Bytes written by the `writeString` helper of audioUtils (lines 70-75):
one byte per character, `charCodeAt`. -/
def asciiBytes (s : String) : List ℕ := s.toList.map Char.toNat

/-- Source lines 85-97 of audioUtils: the 44-byte RIFF/WAVE header written by
`encodeWavPcm16` for `sampleCount` mono 16-bit samples at `sampleRate`
(channelCount = 1, bytesPerSample = 2, byteRate = sampleRate * 1 * 2,
blockAlign = 1 * 2, dataSize = sampleCount * 2). -/
def wavHeader (sampleCount : ℕ) (sampleRate : ℕ) : List ℕ :=
  asciiBytes "RIFF" ++
  u32le (36 + sampleCount * 2) ++
  asciiBytes "WAVE" ++
  asciiBytes "fmt " ++
  u32le 16 ++
  u16le 1 ++
  u16le 1 ++
  u32le sampleRate ++
  u32le (sampleRate * 1 * 2) ++
  u16le (1 * 2) ++
  u16le 16 ++
  asciiBytes "data" ++
  u32le (sampleCount * 2)

/-- Source lines 99-104 of audioUtils: the sample loop of `encodeWavPcm16`,
writing each clamped and scaled sample as little-endian signed 16-bit. -/
def wavData : List ℚ → List ℕ
  | [] => []
  | s :: rest => i16le (pcm16OfSample s) ++ wavData rest

/-- Source lines 60-107 of audioUtils (`encodeWavPcm16`): the emitted blob is
the 44-byte header followed by the sample data. -/
def encodeWavPcm16 (samples : List ℚ) (sampleRate : ℕ) : List ℕ :=
  wavHeader samples.length sampleRate ++ wavData samples

/-- Reads back a little-endian unsigned 16-bit field at byte offset `off`. -/
def readU16le (bytes : List ℕ) (off : ℕ) : ℕ :=
  bytes.getD off 0 + 256 * bytes.getD (off + 1) 0

/-- Reads back a little-endian unsigned 32-bit field at byte offset `off`. -/
def readU32le (bytes : List ℕ) (off : ℕ) : ℕ :=
  bytes.getD off 0 + 256 * bytes.getD (off + 1) 0 +
    65536 * bytes.getD (off + 2) 0 + 16777216 * bytes.getD (off + 3) 0

/-- Source lines 109-117 of audioUtils (`normalizeToFixedSamples`): an input
already of the target length passes through; otherwise a zero-filled buffer
of the target length receives `input.subarray(0, targetLength)`, which
truncates a longer input and zero-pads a shorter one. -/
def normalizeToFixedSamples (input : List ℚ) (targetLength : ℕ) : List ℚ :=
  if input.length = targetLength then
    input
  else
    input.take targetLength ++ List.replicate (targetLength - input.length) 0

/-- Result record of `convertBlobTo16kMonoWav` (source lines 6-11). -/
structure WavConversionResult where
  blob : List ℕ
  pcm : List ℚ
  durationMs : ℤ
  sampleRate : ℚ

/-- Source lines 119-140 of audioUtils (`convertBlobTo16kMonoWav`), modelled
from the decoded buffer onward (decoding a blob is a browser API; every
successfully decoded input is covered by quantifying over `decoded`).  The
offline rendering inside `resampleTo16k` is abstracted by `render`. -/
def convertBlobTo16kMonoWav (render : ℕ → List ℚ) (decoded : DecodedBuffer) :
    WavConversionResult :=
  let monoData := mixToMono decoded
  let resampled := resampleTo16k render monoData decoded.sampleRate
  let fixedLengthPcm := normalizeToFixedSamples resampled TARGET_SAMPLE_COUNT
  { blob := encodeWavPcm16 fixedLengthPcm TARGET_SAMPLE_RATE
    pcm := fixedLengthPcm
    durationMs := round (((fixedLengthPcm.length : ℚ) / (TARGET_SAMPLE_RATE : ℚ)) * 1000)
    sampleRate := (TARGET_SAMPLE_RATE : ℚ) }

/-- Decision labels of the gate (`GateDecision` in gate.ts line 19). -/
inductive GateDecision where
  | PASS
  | AMBIG
  | REJECT
deriving DecidableEq, Repr

/-- Reason codes of the gate (`GateReason` in gate.ts lines 20-27). -/
inductive GateReason where
  | TooQuiet
  | NoSpeech
  | Flatline
  | BorderlineQuiet
  | ClippingSuspected
  | SpeechOffCenter
  | Ok
deriving DecidableEq, Repr

/-- Metrics record of a gate result (gate.ts lines 33-40).  `rmsSq` stores
the mean square of the normalized samples; the source stores its square
root `rms` and only compares it against non-negative thresholds. -/
structure GateDebugMetrics where
  rmsSq : ℚ
  absMax : ℚ
  clipRatio : ℚ
  speechRatio : ℚ
  firstSpeechMs : Option ℤ
  lastSpeechMs : Option ℤ
deriving DecidableEq, Repr

/-- Result record of the gate (gate.ts lines 29-41). -/
structure GateResult where
  decision : GateDecision
  reason : GateReason
  userMessage : String
  debugMetrics : GateDebugMetrics
deriving DecidableEq, Repr

/-- The constants imported by gate.ts from `gateConfig.ts` (a file not among
the sources), kept as an explicit parameter record; thresholds compared
against an RMS value are understood to be non-negative (see the header
note on square-root comparisons).  Time thresholds are integers of
milliseconds, compared against rounded millisecond offsets. -/
structure GateConfig where
  GATE_TARGET_SAMPLE_COUNT : ℕ
  GATE_TARGET_SAMPLE_RATE : ℚ
  FRAME_SIZE : ℕ
  CLIP_LEVEL : ℚ
  FLATLINE_ABS_MAX_THRESHOLD : ℚ
  FLATLINE_RMS_THRESHOLD : ℚ
  TOO_QUIET_RMS_THRESHOLD : ℚ
  NO_SPEECH_RATIO_THRESHOLD : ℚ
  BORDERLINE_QUIET_RMS_THRESHOLD : ℚ
  CLIP_RATIO_THRESHOLD : ℚ
  SPEECH_FRAME_RMS_THRESHOLD : ℚ
  LATE_START_MS : ℤ
  EARLY_END_MS : ℤ
  MIN_SPEECH_SPAN_MS : ℤ
  PASS_SPEECH_RATIO_THRESHOLD : ℚ

/-- Modelled from the spec: `gateConfig.ts` is not among the sources, so a
concrete configuration is reconstructed from the spec's constraints —
target rate 16000 Hz and target count 32000 samples (§4.3/§8), frames as
fixed-size slices, a near-full-scale clip level, minimal-signal flatline
thresholds below the "too quiet" threshold, which is below the borderline
threshold (§4.4).  Only spec-forced facts about it are used in proofs. -/
def specGateConfig : GateConfig where
  GATE_TARGET_SAMPLE_COUNT := 32000
  GATE_TARGET_SAMPLE_RATE := 16000
  FRAME_SIZE := 320
  CLIP_LEVEL := 99 / 100
  FLATLINE_ABS_MAX_THRESHOLD := 1 / 100
  FLATLINE_RMS_THRESHOLD := 1 / 200
  TOO_QUIET_RMS_THRESHOLD := 1 / 50
  NO_SPEECH_RATIO_THRESHOLD := 1 / 10
  BORDERLINE_QUIET_RMS_THRESHOLD := 1 / 20
  CLIP_RATIO_THRESHOLD := 1 / 100
  SPEECH_FRAME_RMS_THRESHOLD := 3 / 100
  LATE_START_MS := 600
  EARLY_END_MS := 1400
  MIN_SPEECH_SPAN_MS := 400
  PASS_SPEECH_RATIO_THRESHOLD := 1 / 2

/-- Source lines 43-51 of gate.ts (`normalizePcmLength`): same pad/truncate
scheme as `normalizeToFixedSamples`, with the target count taken from the
configuration. -/
def normalizePcmLength (cfg : GateConfig) (pcm : List ℚ) : List ℚ :=
  if pcm.length = cfg.GATE_TARGET_SAMPLE_COUNT then
    pcm
  else
    pcm.take cfg.GATE_TARGET_SAMPLE_COUNT ++
      List.replicate (cfg.GATE_TARGET_SAMPLE_COUNT - pcm.length) 0

/-- Source line 67 of gate.ts:
`const actualSampleRate = sampleRate > 0 ? sampleRate : GATE_TARGET_SAMPLE_RATE`. -/
def gateActualSampleRate (cfg : GateConfig) (sampleRate : ℚ) : ℚ :=
  if 0 < sampleRate then sampleRate else cfg.GATE_TARGET_SAMPLE_RATE

/-- Sum of squared samples (the `sumSquares` accumulator, gate.ts lines 69-76). -/
def gateSumSquares (l : List ℚ) : ℚ := (l.map (fun s => s * s)).sum

/-- Peak absolute amplitude (the `absMax` accumulator, gate.ts lines 70-79). -/
def gateAbsMax (l : List ℚ) : ℚ := l.foldl (fun m s => max m |s|) 0

/-- Count of samples beyond the clip level (`clippedCount`, gate.ts lines 80-82). -/
def gateClippedCount (clipLevel : ℚ) (l : List ℚ) : ℕ :=
  l.countP (fun s => decide (clipLevel < |s|))

/-- Mean square of the normalized samples; gate.ts line 85 stores
`rms = Math.sqrt(sumSquares / normalizedPcm.length)`. -/
def gateRmsSq (cfg : GateConfig) (pcm : List ℚ) : ℚ :=
  gateSumSquares (normalizePcmLength cfg pcm) / ((normalizePcmLength cfg pcm).length : ℚ)

/-- Clip ratio, gate.ts line 86. -/
def gateClipRatio (cfg : GateConfig) (pcm : List ℚ) : ℚ :=
  (gateClippedCount cfg.CLIP_LEVEL (normalizePcmLength cfg pcm) : ℚ) /
    ((normalizePcmLength cfg pcm).length : ℚ)

/-- Frame count, gate.ts line 88: `Math.floor(normalizedPcm.length / FRAME_SIZE)`. -/
def gateFrameCount (cfg : GateConfig) (pcm : List ℚ) : ℕ :=
  (normalizePcmLength cfg pcm).length / cfg.FRAME_SIZE

/-- Sum of squares over one frame (gate.ts lines 94-100: samples
`frame * FRAME_SIZE` up to `frame * FRAME_SIZE + FRAME_SIZE`). -/
def frameSumSquares (l : List ℚ) (frameSize frame : ℕ) : ℚ :=
  gateSumSquares ((l.drop (frame * frameSize)).take frameSize)

/-- Speech test for one frame, gate.ts lines 101-102:
`frameRms >= SPEECH_FRAME_RMS_THRESHOLD`, translated to squares. -/
def isSpeechFrame (cfg : GateConfig) (l : List ℚ) (frame : ℕ) : Bool :=
  decide (cfg.SPEECH_FRAME_RMS_THRESHOLD * cfg.SPEECH_FRAME_RMS_THRESHOLD ≤
    frameSumSquares l cfg.FRAME_SIZE frame / (cfg.FRAME_SIZE : ℚ))

/-- Indices of the speech frames in ascending order; the loop of gate.ts
lines 93-109 keeps their count (`speechFrameCount`), the first index
(`firstSpeechFrame`) and the last index (`lastSpeechFrame`). -/
def speechFrames (cfg : GateConfig) (pcm : List ℚ) : List ℕ :=
  (List.range (gateFrameCount cfg pcm)).filter
    (isSpeechFrame cfg (normalizePcmLength cfg pcm))

/-- Speech ratio, gate.ts line 111:
`frameCount > 0 ? speechFrameCount / frameCount : 0`. -/
def gateSpeechRatio (cfg : GateConfig) (pcm : List ℚ) : ℚ :=
  if 0 < gateFrameCount cfg pcm then
    ((speechFrames cfg pcm).length : ℚ) / (gateFrameCount cfg pcm : ℚ)
  else 0

/-- Milliseconds per frame, gate.ts line 112. -/
def gateFrameMs (cfg : GateConfig) (sampleRate : ℚ) : ℚ :=
  (cfg.FRAME_SIZE : ℚ) / gateActualSampleRate cfg sampleRate * 1000

/-- First speech offset in ms, gate.ts line 113. -/
def gateFirstSpeechMs (cfg : GateConfig) (pcm : List ℚ) (sampleRate : ℚ) : Option ℤ :=
  (speechFrames cfg pcm).head?.map
    (fun f => round ((f : ℚ) * gateFrameMs cfg sampleRate))

/-- Last speech offset in ms, gate.ts line 114. -/
def gateLastSpeechMs (cfg : GateConfig) (pcm : List ℚ) (sampleRate : ℚ) : Option ℤ :=
  (speechFrames cfg pcm).getLast?.map
    (fun f => round (((f : ℚ) + 1) * gateFrameMs cfg sampleRate))

/-- Speech span in ms, gate.ts lines 115-116. -/
def gateSpeechSpanMs (cfg : GateConfig) (pcm : List ℚ) (sampleRate : ℚ) : ℤ :=
  match gateFirstSpeechMs cfg pcm sampleRate, gateLastSpeechMs cfg pcm sampleRate with
  | some first, some last => max 0 (last - first)
  | _, _ => 0

/-- The metrics record assembled at gate.ts lines 118-125. -/
def gateMetrics (cfg : GateConfig) (pcm : List ℚ) (sampleRate : ℚ) : GateDebugMetrics where
  rmsSq := gateRmsSq cfg pcm
  absMax := gateAbsMax (normalizePcmLength cfg pcm)
  clipRatio := gateClipRatio cfg pcm
  speechRatio := gateSpeechRatio cfg pcm
  firstSpeechMs := gateFirstSpeechMs cfg pcm sampleRate
  lastSpeechMs := gateLastSpeechMs cfg pcm sampleRate

/-- Tests whether an optional millisecond offset is present and above `b`
(the `firstSpeechMs !== null && firstSpeechMs > LATE_START_MS` pattern). -/
def optSomeGt (o : Option ℤ) (b : ℤ) : Bool :=
  match o with
  | none => false
  | some a => decide (b < a)

/-- Tests whether an optional millisecond offset is present and below `b`
(the `lastSpeechMs !== null && lastSpeechMs < EARLY_END_MS` pattern). -/
def optSomeLt (o : Option ℤ) (b : ℤ) : Bool :=
  match o with
  | none => false
  | some a => decide (a < b)

/-- The off-center condition of gate.ts lines 147-151. -/
def speechOffCenter (cfg : GateConfig) (pcm : List ℚ) (sampleRate : ℚ) : Prop :=
  optSomeGt (gateFirstSpeechMs cfg pcm sampleRate) cfg.LATE_START_MS = true ∨
  optSomeLt (gateLastSpeechMs cfg pcm sampleRate) cfg.EARLY_END_MS = true ∨
  gateSpeechSpanMs cfg pcm sampleRate < cfg.MIN_SPEECH_SPAN_MS

instance (cfg : GateConfig) (pcm : List ℚ) (sampleRate : ℚ) :
    Decidable (speechOffCenter cfg pcm sampleRate) := by
  unfold speechOffCenter
  infer_instance

/-- Source lines 53-63 of gate.ts (`buildResult`). -/
def buildResult (decision : GateDecision) (reason : GateReason) (userMessage : String)
    (debugMetrics : GateDebugMetrics) : GateResult :=
  { decision := decision, reason := reason, userMessage := userMessage,
    debugMetrics := debugMetrics }

/-- User message of the flatline branch (gate.ts line 128). -/
def msgFlatline : String := "마이크 신호가 거의 없어요. 다시 말해볼까?"

/-- User message of the too-quiet branch (gate.ts line 132). -/
def msgTooQuiet : String := "소리가 너무 작게 들어왔어요. 조금 더 크게!"

/-- User message of the no-speech branch (gate.ts line 136). -/
def msgNoSpeech : String := "발화가 거의 감지되지 않았어요. 다시 또렷하게!"

/-- User message of the borderline-quiet branch (gate.ts line 140). -/
def msgBorderlineQuiet : String := "거의 좋아요! 한 번만 더 또렷하게 해볼까요?"

/-- User message of the clipping branch (gate.ts line 144). -/
def msgClipping : String := "소리가 살짝 깨졌을 수 있어요. 다시 한 번!"

/-- User message of the off-center branch (gate.ts line 152). -/
def msgOffCenter : String := "타이밍이 조금 치우쳤어요. 중앙에 맞춰 다시!"

/-- User message of the pass branch (gate.ts line 156). -/
def msgPass : String := "좋아! 완벽해 🎉"

/-- User message of the fallback branch (gate.ts line 159). -/
def msgFallback : String := "조금만 더 선명하게 말하면 바로 통과예요!"

/-- Source lines 65-160 of gate.ts (`analyzePcmForSpeechGate`): the decision
tree over the metrics, evaluated in source order with the first matching
branch winning.  RMS comparisons appear in squared form (see the header
note). -/
def analyzePcmForSpeechGate (cfg : GateConfig) (pcm : List ℚ) (sampleRate : ℚ) :
    GateResult :=
  if gateAbsMax (normalizePcmLength cfg pcm) < cfg.FLATLINE_ABS_MAX_THRESHOLD ∧
      gateRmsSq cfg pcm < cfg.FLATLINE_RMS_THRESHOLD * cfg.FLATLINE_RMS_THRESHOLD then
    buildResult .REJECT .Flatline msgFlatline (gateMetrics cfg pcm sampleRate)
  else if gateRmsSq cfg pcm < cfg.TOO_QUIET_RMS_THRESHOLD * cfg.TOO_QUIET_RMS_THRESHOLD then
    buildResult .REJECT .TooQuiet msgTooQuiet (gateMetrics cfg pcm sampleRate)
  else if gateSpeechRatio cfg pcm < cfg.NO_SPEECH_RATIO_THRESHOLD then
    buildResult .REJECT .NoSpeech msgNoSpeech (gateMetrics cfg pcm sampleRate)
  else if gateRmsSq cfg pcm <
      cfg.BORDERLINE_QUIET_RMS_THRESHOLD * cfg.BORDERLINE_QUIET_RMS_THRESHOLD then
    buildResult .AMBIG .BorderlineQuiet msgBorderlineQuiet (gateMetrics cfg pcm sampleRate)
  else if cfg.CLIP_RATIO_THRESHOLD < gateClipRatio cfg pcm then
    buildResult .AMBIG .ClippingSuspected msgClipping (gateMetrics cfg pcm sampleRate)
  else if speechOffCenter cfg pcm sampleRate then
    buildResult .AMBIG .SpeechOffCenter msgOffCenter (gateMetrics cfg pcm sampleRate)
  else if cfg.PASS_SPEECH_RATIO_THRESHOLD ≤ gateSpeechRatio cfg pcm ∧
      cfg.BORDERLINE_QUIET_RMS_THRESHOLD * cfg.BORDERLINE_QUIET_RMS_THRESHOLD ≤
        gateRmsSq cfg pcm then
    buildResult .PASS .Ok msgPass (gateMetrics cfg pcm sampleRate)
  else
    buildResult .AMBIG .SpeechOffCenter msgFallback (gateMetrics cfg pcm sampleRate)

/-- Session states of the recorder hook (useRecorder lines 5-16). -/
inductive RecorderStatus where
  | Idle
  | Requesting
  | Ready
  | Recording
  | Processing
  | Result
  | DurationRejected
  | MicDenied
  | Unsupported
  | Error
deriving DecidableEq, Repr

/-- Observable fields of the recorder hook relevant to the double-start
guard (useRecorder lines 69-77 and the chunk buffer of line 80). -/
structure RecorderState where
  status : RecorderStatus
  elapsedMs : ℤ
  chunks : List ℕ
  audioBlob : Option (List ℕ)
  audioUrl : Option String
  gateResult : Option GateResult
  errorName : Option String
  measuredDurationMs : Option ℤ
  outputSampleRate : Option ℚ
deriving DecidableEq

/-- Source lines 203-208 of useRecorder (`startRecording`): a call made while
the status is `Requesting` or `Recording` logs and returns immediately,
before any field is touched.  Everything after the guard (device
acquisition, recorder construction, buffer clearing, timer setup — browser
APIs and asynchronous effects) is abstracted as the `proceed` continuation,
which the guard prevents from running. -/
def startRecording (proceed : RecorderState → RecorderState) (s : RecorderState) :
    RecorderState :=
  if s.status = RecorderStatus.Requesting ∨ s.status = RecorderStatus.Recording then
    s
  else
    proceed s

/-- The three writes to `elapsedMs` performed by `startRecording`: the reset
`setElapsedMs(0)` at line 235, the periodic tick of lines 334-340
(`setElapsedMs(Math.min(Date.now() - startedAt, maxDurationMs))`) and the
auto-stop write `setElapsedMs(maxDurationMs)` at line 344. -/
inductive ElapsedEvent where
  | startReset
  | tick (now startedAt : ℤ)
  | autoStop

/-- The value stored into `elapsedMs` by each of the three writes. -/
def applyElapsedEvent (maxDurationMs : ℤ) : ElapsedEvent → ℤ
  | ElapsedEvent.startReset => 0
  | ElapsedEvent.tick now startedAt => min (now - startedAt) maxDurationMs
  | ElapsedEvent.autoStop => maxDurationMs

/-- Recorder state used by the double-start-guard witness: a session in the
middle of a recording, with some accumulated data. -/
def busyRecorderState : RecorderState :=
  { status := RecorderStatus.Recording
    elapsedMs := 700
    chunks := [3, 5]
    audioBlob := none
    audioUrl := none
    gateResult := none
    errorName := none
    measuredDurationMs := none
    outputSampleRate := none }

/-- A continuation used by the double-start-guard witness: it would wipe the
whole state if the guard let it run. -/
def wipeRecorderState : RecorderState → RecorderState :=
  fun _ =>
    { status := RecorderStatus.Idle
      elapsedMs := 0
      chunks := []
      audioBlob := none
      audioUrl := none
      gateResult := none
      errorName := none
      measuredDurationMs := none
      outputSampleRate := none }

/-- Gate configuration used by the priority witness: four-sample target,
two-sample frames, flatline peak threshold 0 (so the flatline branch cannot
fire on any signal), too-quiet threshold 1/10. -/
def quietOffCenterConfig : GateConfig where
  GATE_TARGET_SAMPLE_COUNT := 4
  GATE_TARGET_SAMPLE_RATE := 16000
  FRAME_SIZE := 2
  CLIP_LEVEL := 99 / 100
  FLATLINE_ABS_MAX_THRESHOLD := 0
  FLATLINE_RMS_THRESHOLD := 1 / 200
  TOO_QUIET_RMS_THRESHOLD := 1 / 10
  NO_SPEECH_RATIO_THRESHOLD := 1 / 10
  BORDERLINE_QUIET_RMS_THRESHOLD := 1 / 5
  CLIP_RATIO_THRESHOLD := 1 / 100
  SPEECH_FRAME_RMS_THRESHOLD := 1 / 100
  LATE_START_MS := 600
  EARLY_END_MS := 1400
  MIN_SPEECH_SPAN_MS := 10
  PASS_SPEECH_RATIO_THRESHOLD := 1 / 2

/-- Gate configuration used by the totality witness: one-sample target with
two-sample frames, so the frame count is zero. -/
def emptyFrameConfig : GateConfig where
  GATE_TARGET_SAMPLE_COUNT := 1
  GATE_TARGET_SAMPLE_RATE := 16000
  FRAME_SIZE := 2
  CLIP_LEVEL := 99 / 100
  FLATLINE_ABS_MAX_THRESHOLD := 1 / 100
  FLATLINE_RMS_THRESHOLD := 1 / 200
  TOO_QUIET_RMS_THRESHOLD := 1 / 50
  NO_SPEECH_RATIO_THRESHOLD := 1 / 10
  BORDERLINE_QUIET_RMS_THRESHOLD := 1 / 20
  CLIP_RATIO_THRESHOLD := 1 / 100
  SPEECH_FRAME_RMS_THRESHOLD := 3 / 100
  LATE_START_MS := 600
  EARLY_END_MS := 1400
  MIN_SPEECH_SPAN_MS := 400
  PASS_SPEECH_RATIO_THRESHOLD := 1 / 2

/-- Justification for the squared encoding of RMS comparisons: comparing
`Math.sqrt q` against a non-negative threshold is the same as comparing `q`
against the squared threshold. -/
theorem sqrt_lt_iff_mul_self_lt (q t : ℝ) (hq : 0 ≤ q) (ht : 0 ≤ t) :
    Real.sqrt q < t ↔ q < t * t := by
  rcases eq_or_lt_of_le ht with h | h
  · constructor
    · intro hlt
      exact absurd (lt_of_le_of_lt (Real.sqrt_nonneg q) hlt) (by rw [← h]; exact lt_irrefl 0)
    · intro hlt
      nlinarith [Real.sqrt_nonneg q]
  · rw [show t * t = t ^ 2 by ring]
    exact Real.sqrt_lt' h

/-- Pad/truncate characterization of `normalizeToFixedSamples`. -/
theorem normalizeToFixedSamples_eq (input : List ℚ) (targetLength : ℕ) :
    normalizeToFixedSamples input targetLength =
      input.take targetLength ++ List.replicate (targetLength - input.length) 0 := by
  unfold normalizeToFixedSamples
  by_cases h : input.length = targetLength
  · rw [if_pos h, ← h, Nat.sub_self, List.replicate_zero, List.append_nil, List.take_length]
  · rw [if_neg h]

/-- The normalizer always emits exactly the target number of samples. -/
theorem normalizeToFixedSamples_length (input : List ℚ) (targetLength : ℕ) :
    (normalizeToFixedSamples input targetLength).length = targetLength := by
  rw [normalizeToFixedSamples_eq, List.length_append, List.length_take,
    List.length_replicate]
  omega

/-- Pad/truncate characterization of the gate's `normalizePcmLength`. -/
theorem normalizePcmLength_eq (cfg : GateConfig) (pcm : List ℚ) :
    normalizePcmLength cfg pcm =
      pcm.take cfg.GATE_TARGET_SAMPLE_COUNT ++
        List.replicate (cfg.GATE_TARGET_SAMPLE_COUNT - pcm.length) 0 := by
  unfold normalizePcmLength
  by_cases h : pcm.length = cfg.GATE_TARGET_SAMPLE_COUNT
  · rw [if_pos h, ← h, Nat.sub_self, List.replicate_zero, List.append_nil, List.take_length]
  · rw [if_neg h]

/-- The gate normalizer always emits the configured number of samples. -/
theorem normalizePcmLength_length (cfg : GateConfig) (pcm : List ℚ) :
    (normalizePcmLength cfg pcm).length = cfg.GATE_TARGET_SAMPLE_COUNT := by
  rw [normalizePcmLength_eq, List.length_append, List.length_take, List.length_replicate]
  omega

/-- Sum of squares of an all-zero buffer. -/
theorem gateSumSquares_replicate_zero (n : ℕ) :
    gateSumSquares (List.replicate n 0) = 0 := by
  simp [gateSumSquares]

/-- Folding the absolute-maximum accumulator over an all-zero buffer keeps a
non-negative accumulator unchanged. -/
theorem foldl_absMax_replicate_zero (n : ℕ) (a : ℚ) (h : 0 ≤ a) :
    List.foldl (fun m s => max m |s|) a (List.replicate n 0) = a := by
  induction n generalizing a with
  | zero => rfl
  | succ k ih =>
      rw [List.replicate_succ, List.foldl_cons, abs_zero, max_eq_left h]
      exact ih a h

/-- Peak amplitude of an all-zero buffer. -/
theorem gateAbsMax_replicate_zero (n : ℕ) : gateAbsMax (List.replicate n 0) = 0 :=
  foldl_absMax_replicate_zero n 0 le_rfl

/-- The absolute-maximum accumulator never drops below its start value. -/
theorem foldl_absMax_le (l : List ℚ) (a : ℚ) :
    a ≤ List.foldl (fun m s => max m |s|) a l := by
  induction l generalizing a with
  | nil => exact le_rfl
  | cons s rest ih => exact le_trans (le_max_left a |s|) (ih (max a |s|))

/-- The peak amplitude metric is never negative. -/
theorem gateAbsMax_nonneg (l : List ℚ) : 0 ≤ gateAbsMax l :=
  foldl_absMax_le l 0

/-- Projection of the decision out of `buildResult`. -/
theorem buildResult_decision (d : GateDecision) (r : GateReason) (m : String)
    (mt : GateDebugMetrics) : (buildResult d r m mt).decision = d := rfl

/-- Projection of the reason out of `buildResult`. -/
theorem buildResult_reason (d : GateDecision) (r : GateReason) (m : String)
    (mt : GateDebugMetrics) : (buildResult d r m mt).reason = r := rfl

/-- Each encoded sample occupies exactly two bytes. -/
theorem i16le_length (v : ℤ) : (i16le v).length = 2 := rfl

/-- The data section holds two bytes per sample. -/
theorem wavData_length (l : List ℚ) : (wavData l).length = 2 * l.length := by
  induction l with
  | nil => rfl
  | cons s rest ih =>
      rw [wavData, List.length_append, i16le_length, ih, List.length_cons]
      ring

/-- The header always occupies 44 bytes. -/
theorem wavHeader_length (sampleCount sampleRate : ℕ) :
    (wavHeader sampleCount sampleRate).length = 44 := rfl

/-- Byte `2*i` and byte `2*i+1` of the data section are exactly the
little-endian encoding of the `i`-th converted sample. -/
theorem wavData_getD (l : List ℚ) (i : ℕ) (h : i < l.length) :
    (wavData l).getD (2 * i) 0 = (i16le (pcm16OfSample (l.getD i 0))).getD 0 0 ∧
    (wavData l).getD (2 * i + 1) 0 = (i16le (pcm16OfSample (l.getD i 0))).getD 1 0 := by
  induction l generalizing i with
  | nil => simp at h
  | cons s rest ih =>
      cases i with
      | zero => exact ⟨rfl, rfl⟩
      | succ j =>
          have hj : j < rest.length := by
            simpa [List.length_cons] using h
          have h2 : 2 * (j + 1) = 2 * j + 1 + 1 := by ring
          have hcons : wavData (s :: rest) =
              ((pcm16OfSample s % 65536).toNat % 256) ::
                ((pcm16OfSample s % 65536).toNat / 256 % 256) :: wavData rest := rfl
          constructor
          · rw [hcons, h2]
            simp only [List.getD_cons_succ]
            exact (ih j hj).1
          · rw [hcons, h2]
            simp only [List.getD_cons_succ]
            exact (ih j hj).2

/-- C1: for every decoded input and every rendering outcome, the normalized
PCM returned by `convertBlobTo16kMonoWav` has length exactly
`TARGET_SAMPLE_RATE * TARGET_DURATION_MS / 1000 = 32000` samples; longer
resampled signals are truncated to the first 32000 samples and shorter ones
are zero-padded at the end. -/
theorem convert_pcm_fixed_length (render : ℕ → List ℚ) (decoded : DecodedBuffer) :
    (convertBlobTo16kMonoWav render decoded).pcm.length =
      TARGET_SAMPLE_RATE * TARGET_DURATION_MS / 1000 ∧
    (convertBlobTo16kMonoWav render decoded).pcm.length = 32000 ∧
    (convertBlobTo16kMonoWav render decoded).pcm =
      (resampleTo16k render (mixToMono decoded) decoded.sampleRate).take 32000 ++
        List.replicate
          (32000 - (resampleTo16k render (mixToMono decoded) decoded.sampleRate).length)
          0 := by
  have hpcm : (convertBlobTo16kMonoWav render decoded).pcm =
      normalizeToFixedSamples
        (resampleTo16k render (mixToMono decoded) decoded.sampleRate)
        TARGET_SAMPLE_COUNT := rfl
  have hcount : TARGET_SAMPLE_COUNT = 32000 := rfl
  refine ⟨?_, ?_, ?_⟩
  · rw [hpcm, normalizeToFixedSamples_length]
    rfl
  · rw [hpcm, normalizeToFixedSamples_length, hcount]
  · rw [hpcm, normalizeToFixedSamples_eq, hcount]

/-- C9: the duration and sample rate reported by `convertBlobTo16kMonoWav`
are the constants 2000 ms and 16000 Hz, derived from the fixed-length
output rather than from the raw recording. -/
theorem convert_reports_constant_duration (render : ℕ → List ℚ)
    (decoded : DecodedBuffer) :
    (convertBlobTo16kMonoWav render decoded).durationMs = 2000 ∧
    (convertBlobTo16kMonoWav render decoded).sampleRate = 16000 := by
  have hdur : (convertBlobTo16kMonoWav render decoded).durationMs =
      round ((((normalizeToFixedSamples
          (resampleTo16k render (mixToMono decoded) decoded.sampleRate)
          TARGET_SAMPLE_COUNT).length : ℚ) / (TARGET_SAMPLE_RATE : ℚ)) * 1000) := rfl
  constructor
  · rw [hdur, normalizeToFixedSamples_length]
    norm_num [TARGET_SAMPLE_COUNT, TARGET_SAMPLE_RATE, TARGET_DURATION_MS, round_eq]
  · show ((TARGET_SAMPLE_RATE : ℕ) : ℚ) = 16000
    norm_num [TARGET_SAMPLE_RATE]

/-- C7: every write to the elapsed-time field stays at or below the
configured maximum duration — the periodic tick clamps with `min`, the
start reset writes 0, and the auto-stop write is exactly the maximum. -/
theorem elapsed_never_exceeds_max (maxDurationMs : ℤ) (e : ElapsedEvent)
    (h : 0 ≤ maxDurationMs) :
    applyElapsedEvent maxDurationMs e ≤ maxDurationMs ∧
    applyElapsedEvent maxDurationMs ElapsedEvent.autoStop = maxDurationMs := by
  refine ⟨?_, rfl⟩
  cases e with
  | startReset => exact h
  | tick now startedAt => exact min_le_right _ _
  | autoStop => exact le_rfl

/-- Witness for C7 at a clock reading 5000 ms past a start at 0 with a
2000 ms maximum: the tick still reports at most 2000. -/
theorem elapsed_never_exceeds_max_witness :
    (0 : ℤ) ≤ 2000 ∧
    applyElapsedEvent 2000 (ElapsedEvent.tick 5000 0) ≤ 2000 ∧
    applyElapsedEvent 2000 ElapsedEvent.autoStop = 2000 :=
  ⟨by decide, (elapsed_never_exceeds_max 2000 (ElapsedEvent.tick 5000 0) (by decide)).1,
    (elapsed_never_exceeds_max 2000 (ElapsedEvent.tick 5000 0) (by decide)).2⟩

/-- C8: calling `startRecording` while the status is `Requesting` or
`Recording` returns the state unchanged: no field is modified and the
continuation after the guard never runs. -/
theorem startRecording_noop_when_busy (proceed : RecorderState → RecorderState)
    (s : RecorderState)
    (h : s.status = RecorderStatus.Requesting ∨ s.status = RecorderStatus.Recording) :
    startRecording proceed s = s ∧
    (startRecording proceed s).status = s.status ∧
    (startRecording proceed s).elapsedMs = s.elapsedMs ∧
    (startRecording proceed s).chunks = s.chunks ∧
    (startRecording proceed s).audioBlob = s.audioBlob ∧
    (startRecording proceed s).audioUrl = s.audioUrl ∧
    (startRecording proceed s).gateResult = s.gateResult ∧
    (startRecording proceed s).errorName = s.errorName := by
  have he : startRecording proceed s = s := by
    unfold startRecording
    rw [if_pos h]
  exact ⟨he, by rw [he], by rw [he], by rw [he], by rw [he], by rw [he], by rw [he],
    by rw [he]⟩

/-- Witness for C8: a recording-in-progress state survives a double-start
call unchanged even though the continuation would wipe it. -/
theorem startRecording_noop_when_busy_witness :
    startRecording wipeRecorderState busyRecorderState = busyRecorderState ∧
    (startRecording wipeRecorderState busyRecorderState).chunks = busyRecorderState.chunks :=
  ⟨(startRecording_noop_when_busy wipeRecorderState busyRecorderState (Or.inr rfl)).1,
    (startRecording_noop_when_busy wipeRecorderState busyRecorderState (Or.inr rfl)).2.2.2.1⟩

/-- C2: the decision tree is evaluated in strict priority order — a sample
whose overall RMS is below the too-quiet threshold but which is not a
flatline is rejected as `TooQuiet` even when it is simultaneously
off-center; `SpeechOffCenter` can never be reported for it. -/
theorem gate_tooQuiet_before_offCenter (cfg : GateConfig) (pcm : List ℚ)
    (sampleRate : ℚ)
    (hnotflat : ¬ (gateAbsMax (normalizePcmLength cfg pcm) < cfg.FLATLINE_ABS_MAX_THRESHOLD ∧
      gateRmsSq cfg pcm < cfg.FLATLINE_RMS_THRESHOLD * cfg.FLATLINE_RMS_THRESHOLD))
    (hquiet : gateRmsSq cfg pcm <
      cfg.TOO_QUIET_RMS_THRESHOLD * cfg.TOO_QUIET_RMS_THRESHOLD)
    (hoff : speechOffCenter cfg pcm sampleRate) :
    (analyzePcmForSpeechGate cfg pcm sampleRate).decision = GateDecision.REJECT ∧
    (analyzePcmForSpeechGate cfg pcm sampleRate).reason = GateReason.TooQuiet := by
  unfold analyzePcmForSpeechGate
  rw [if_neg hnotflat, if_pos hquiet]
  exact ⟨rfl, rfl⟩

/-- Witness for C2: the four-sample buffer `[1/50, 0, 0, 0]` under
`quietOffCenterConfig` is simultaneously too quiet (mean square 1/10000
below the squared threshold 1/100), not a flatline, and off-center (its
only speech frame ends at 0 ms, before the early-end bound), and the gate
rejects it as `TooQuiet`. -/
theorem gate_tooQuiet_before_offCenter_witness :
    (analyzePcmForSpeechGate quietOffCenterConfig [1/50, 0, 0, 0] 16000).decision =
        GateDecision.REJECT ∧
    (analyzePcmForSpeechGate quietOffCenterConfig [1/50, 0, 0, 0] 16000).reason =
        GateReason.TooQuiet :=
  gate_tooQuiet_before_offCenter quietOffCenterConfig [1/50, 0, 0, 0] 16000
    (fun hc => absurd hc.1 (not_lt.mpr (gateAbsMax_nonneg _)))
    (by norm_num [gateRmsSq, normalizePcmLength, gateSumSquares, quietOffCenterConfig])
    (by
      have h : gateLastSpeechMs quietOffCenterConfig [1/50, 0, 0, 0] 16000 = some 0 := by
        norm_num [gateLastSpeechMs, speechFrames, gateFrameCount, normalizePcmLength,
          quietOffCenterConfig, List.range_succ, isSpeechFrame, frameSumSquares,
          gateSumSquares, List.filter, gateFrameMs, gateActualSampleRate, round_eq]
      refine Or.inr (Or.inl ?_)
      rw [h]
      decide)

/-- C4: the gate reports `Flatline` only when the peak amplitude is below
the flatline peak threshold and the overall RMS is below the flatline RMS
threshold (so a loud transient with near-zero RMS elsewhere cannot trigger
it), and the all-zero 32000-sample waveform is rejected as `Flatline`. -/
theorem gate_flatline_characterization :
    (∀ (cfg : GateConfig) (pcm : List ℚ) (sampleRate : ℚ),
      (analyzePcmForSpeechGate cfg pcm sampleRate).reason = GateReason.Flatline →
        gateAbsMax (normalizePcmLength cfg pcm) < cfg.FLATLINE_ABS_MAX_THRESHOLD ∧
        gateRmsSq cfg pcm < cfg.FLATLINE_RMS_THRESHOLD * cfg.FLATLINE_RMS_THRESHOLD) ∧
    (analyzePcmForSpeechGate specGateConfig (List.replicate 32000 0) 16000).decision =
        GateDecision.REJECT ∧
    (analyzePcmForSpeechGate specGateConfig (List.replicate 32000 0) 16000).reason =
        GateReason.Flatline := by
  refine ⟨?_, ?_⟩
  · intro cfg pcm sampleRate h
    by_cases hc : gateAbsMax (normalizePcmLength cfg pcm) < cfg.FLATLINE_ABS_MAX_THRESHOLD ∧
        gateRmsSq cfg pcm < cfg.FLATLINE_RMS_THRESHOLD * cfg.FLATLINE_RMS_THRESHOLD
    · exact hc
    · exfalso
      unfold analyzePcmForSpeechGate at h
      rw [if_neg hc] at h
      split_ifs at h <;> rw [buildResult_reason] at h <;> exact absurd h (by decide)
  · have hnorm : normalizePcmLength specGateConfig (List.replicate 32000 (0:ℚ)) =
        List.replicate 32000 (0:ℚ) := by
      unfold normalizePcmLength
      rw [if_pos (by rw [List.length_replicate]; rfl)]
    have habs : gateAbsMax (normalizePcmLength specGateConfig (List.replicate 32000 (0:ℚ))) =
        0 := by
      rw [hnorm, gateAbsMax_replicate_zero]
    have hrms : gateRmsSq specGateConfig (List.replicate 32000 (0:ℚ)) = 0 := by
      unfold gateRmsSq
      rw [hnorm, gateSumSquares_replicate_zero, zero_div]
    have hcond : gateAbsMax (normalizePcmLength specGateConfig (List.replicate 32000 (0:ℚ))) <
        specGateConfig.FLATLINE_ABS_MAX_THRESHOLD ∧
        gateRmsSq specGateConfig (List.replicate 32000 (0:ℚ)) <
          specGateConfig.FLATLINE_RMS_THRESHOLD * specGateConfig.FLATLINE_RMS_THRESHOLD := by
      rw [habs, hrms]
      constructor <;> norm_num [specGateConfig]
    constructor
    · unfold analyzePcmForSpeechGate
      rw [if_pos hcond, buildResult_decision]
    · unfold analyzePcmForSpeechGate
      rw [if_pos hcond, buildResult_reason]

/-- Witness for C4: the gate's verdict on the all-zero waveform (second
part of the theorem) discharges the hypothesis of the first part, yielding
the two flatline threshold bounds on that concrete input. -/
theorem gate_flatline_characterization_witness :
    gateAbsMax (normalizePcmLength specGateConfig (List.replicate 32000 0)) <
        specGateConfig.FLATLINE_ABS_MAX_THRESHOLD ∧
    gateRmsSq specGateConfig (List.replicate 32000 0) <
        specGateConfig.FLATLINE_RMS_THRESHOLD * specGateConfig.FLATLINE_RMS_THRESHOLD :=
  gate_flatline_characterization.1 specGateConfig (List.replicate 32000 0) 16000
    gate_flatline_characterization.2.2

/-- C10: the gate is total over its public interface — the normalizer always
emits the configured sample count (so the RMS divisor is positive whenever
the configured count is), a non-positive sample rate is replaced by the
configured target rate before frame offsets are computed, the metrics of
every verdict are the same total record, and the speech ratio is defined as
0 when the frame count is zero. -/
theorem gate_total_guards (cfg : GateConfig) (pcm : List ℚ) (sampleRate : ℚ) :
    (normalizePcmLength cfg pcm).length = cfg.GATE_TARGET_SAMPLE_COUNT ∧
    (0 < cfg.GATE_TARGET_SAMPLE_COUNT → 0 < (normalizePcmLength cfg pcm).length) ∧
    (¬ 0 < sampleRate → gateActualSampleRate cfg sampleRate = cfg.GATE_TARGET_SAMPLE_RATE) ∧
    (analyzePcmForSpeechGate cfg pcm sampleRate).debugMetrics =
      gateMetrics cfg pcm sampleRate ∧
    (gateFrameCount cfg pcm = 0 →
      (analyzePcmForSpeechGate cfg pcm sampleRate).debugMetrics.speechRatio = 0) := by
  have hmet : (analyzePcmForSpeechGate cfg pcm sampleRate).debugMetrics =
      gateMetrics cfg pcm sampleRate := by
    unfold analyzePcmForSpeechGate
    split_ifs <;> rfl
  refine ⟨normalizePcmLength_length cfg pcm, ?_, ?_, hmet, ?_⟩
  · intro hpos
    rw [normalizePcmLength_length]
    exact hpos
  · intro hneg
    unfold gateActualSampleRate
    rw [if_neg hneg]
  · intro hzero
    rw [hmet]
    show gateSpeechRatio cfg pcm = 0
    unfold gateSpeechRatio
    rw [if_neg (by rw [hzero]; exact lt_irrefl 0)]

/-- Witness for C10 at the empty input with sample rate -1 under a
configuration whose frame size exceeds its one-sample target (so the frame
count is zero). -/
theorem gate_total_guards_witness :
    (normalizePcmLength emptyFrameConfig []).length = 1 ∧
    gateActualSampleRate emptyFrameConfig (-1) = 16000 ∧
    (analyzePcmForSpeechGate emptyFrameConfig [] (-1)).debugMetrics.speechRatio = 0 :=
  ⟨(gate_total_guards emptyFrameConfig [] (-1)).1,
    (gate_total_guards emptyFrameConfig [] (-1)).2.2.1 (by norm_num),
    (gate_total_guards emptyFrameConfig [] (-1)).2.2.2.2 (by decide)⟩

/-- Skipping a leading block when reading a 16-bit field. -/
theorem readU16le_skip (l1 l2 : List ℕ) (off : ℕ) (h : l1.length ≤ off) :
    readU16le (l1 ++ l2) off = readU16le l2 (off - l1.length) := by
  unfold readU16le
  rw [List.getD_append_right _ _ _ _ h,
    List.getD_append_right _ _ _ _ (h.trans (Nat.le_succ off))]
  have e : off + 1 - l1.length = off - l1.length + 1 := by omega
  rw [e]

/-- Skipping a leading block when reading a 32-bit field. -/
theorem readU32le_skip (l1 l2 : List ℕ) (off : ℕ) (h : l1.length ≤ off) :
    readU32le (l1 ++ l2) off = readU32le l2 (off - l1.length) := by
  unfold readU32le
  rw [List.getD_append_right _ _ _ _ h,
    List.getD_append_right _ _ _ _ (h.trans (Nat.le_succ off)),
    List.getD_append_right _ _ _ _ (h.trans ((Nat.le_succ off).trans (Nat.le_succ (off + 1)))),
    List.getD_append_right _ _ _ _
      (h.trans (((Nat.le_succ off).trans (Nat.le_succ (off + 1))).trans
        (Nat.le_succ (off + 1 + 1))))]
  have e1 : off + 1 - l1.length = off - l1.length + 1 := by omega
  have e2 : off + 2 - l1.length = off - l1.length + 2 := by omega
  have e3 : off + 3 - l1.length = off - l1.length + 3 := by omega
  rw [e1, e2, e3]

/-- Reading a 16-bit field at the head of a `u16le` block. -/
theorem readU16le_u16le (v : ℕ) (rest : List ℕ) :
    readU16le (u16le v ++ rest) 0 = v % 256 + 256 * (v / 256 % 256) := rfl

/-- Reading a 32-bit field at the head of a `u32le` block. -/
theorem readU32le_u32le (v : ℕ) (rest : List ℕ) :
    readU32le (u32le v ++ rest) 0 =
      v % 256 + 256 * (v / 256 % 256) + 65536 * (v / 65536 % 256) +
        16777216 * (v / 16777216 % 256) := rfl

/-- Byte length of the RIFF magic. -/
theorem length_asciiBytes_RIFF : (asciiBytes "RIFF").length = 4 := rfl

/-- Byte length of the WAVE magic. -/
theorem length_asciiBytes_WAVE : (asciiBytes "WAVE").length = 4 := rfl

/-- Byte length of the fmt chunk id. -/
theorem length_asciiBytes_fmt : (asciiBytes "fmt ").length = 4 := rfl

/-- Byte length of the data chunk id. -/
theorem length_asciiBytes_data : (asciiBytes "data").length = 4 := rfl

/-- Byte length of a 16-bit field. -/
theorem length_u16le (v : ℕ) : (u16le v).length = 2 := rfl

/-- Byte length of a 32-bit field. -/
theorem length_u32le (v : ℕ) : (u32le v).length = 4 := rfl

/-- C3: the blob produced by `encodeWavPcm16` at the target rate is a 44-byte
header followed by `sampleCount * 2` data bytes, and parsing the header
fields back out yields RIFF size 36 + data size, format tag 1 (linear PCM),
channel count 1, sample rate 16000, byte rate `rate * channels * 2`, block
alignment `channels * 2`, bits per sample 16, and a data-size field equal to
`sampleCount * 2` — the header round-trip is lossless (for any file small
enough that its size fields fit an unsigned 32-bit word). -/
theorem encodeWavPcm16_header_roundtrip (samples : List ℚ)
    (hsize : 36 + samples.length * 2 < 4294967296) :
    (encodeWavPcm16 samples TARGET_SAMPLE_RATE).length = 44 + samples.length * 2 ∧
    readU32le (encodeWavPcm16 samples TARGET_SAMPLE_RATE) 4 = 36 + samples.length * 2 ∧
    readU16le (encodeWavPcm16 samples TARGET_SAMPLE_RATE) 20 = 1 ∧
    readU16le (encodeWavPcm16 samples TARGET_SAMPLE_RATE) 22 = 1 ∧
    readU32le (encodeWavPcm16 samples TARGET_SAMPLE_RATE) 24 = 16000 ∧
    readU32le (encodeWavPcm16 samples TARGET_SAMPLE_RATE) 28 = 16000 * 1 * 2 ∧
    readU16le (encodeWavPcm16 samples TARGET_SAMPLE_RATE) 32 = 1 * 2 ∧
    readU16le (encodeWavPcm16 samples TARGET_SAMPLE_RATE) 34 = 16 ∧
    readU32le (encodeWavPcm16 samples TARGET_SAMPLE_RATE) 40 = samples.length * 2 := by
  refine ⟨?_, ?_, ?_, ?_, ?_, ?_, ?_, ?_, ?_⟩
  · rw [encodeWavPcm16, List.length_append, wavHeader_length, wavData_length]
    omega
  all_goals
    simp [encodeWavPcm16, wavHeader, List.append_assoc, readU16le_skip, readU32le_skip,
      readU16le_u16le, readU32le_u32le, length_asciiBytes_RIFF, length_asciiBytes_WAVE,
      length_asciiBytes_fmt, length_asciiBytes_data, length_u16le, length_u32le,
      TARGET_SAMPLE_RATE]
  all_goals omega

/-- Witness for C3 at the one-sample buffer `[1]`. -/
theorem encodeWavPcm16_header_roundtrip_witness :
    36 + (List.length [(1 : ℚ)]) * 2 < 4294967296 ∧
    (encodeWavPcm16 [(1 : ℚ)] TARGET_SAMPLE_RATE).length = 44 + (List.length [(1 : ℚ)]) * 2 ∧
    readU32le (encodeWavPcm16 [(1 : ℚ)] TARGET_SAMPLE_RATE) 40 = (List.length [(1 : ℚ)]) * 2 :=
  ⟨by decide, (encodeWavPcm16_header_roundtrip [(1 : ℚ)] (by decide)).1,
    (encodeWavPcm16_header_roundtrip [(1 : ℚ)] (by decide)).2.2.2.2.2.2.2.2⟩

/-- C6: the encoder clamps every sample to [-1, 1], scales negative clamped
samples by 32768 and non-negative ones by 32767 (so the stored integer
always lies in the signed 16-bit range with no wraparound), and the two
bytes written at data offset `2*i` are exactly the little-endian encoding
of the converted `i`-th sample. -/
theorem encodeWav_sample_conversion :
    (∀ s : ℚ, -1 ≤ clampSample s ∧ clampSample s ≤ 1 ∧
      (-1 ≤ s → s ≤ 1 → clampSample s = s)) ∧
    (∀ s : ℚ, -32768 ≤ pcm16OfSample s ∧ pcm16OfSample s ≤ 32767) ∧
    (∀ (samples : List ℚ) (sampleRate : ℕ) (i : ℕ), i < samples.length →
      (encodeWavPcm16 samples sampleRate).getD (44 + 2 * i) 0 =
        (i16le (pcm16OfSample (samples.getD i 0))).getD 0 0 ∧
      (encodeWavPcm16 samples sampleRate).getD (44 + 2 * i + 1) 0 =
        (i16le (pcm16OfSample (samples.getD i 0))).getD 1 0) := by
  refine ⟨?_, ?_, ?_⟩
  · intro s
    refine ⟨le_max_left _ _, max_le (by norm_num) (min_le_left _ _), ?_⟩
    intro h1 h2
    unfold clampSample
    rw [min_eq_right h2, max_eq_right h1]
  · intro s
    have hc1 : -1 ≤ clampSample s := le_max_left _ _
    have hc2 : clampSample s ≤ 1 := max_le (by norm_num) (min_le_left _ _)
    unfold pcm16OfSample truncTowardZero
    by_cases hneg : clampSample s < 0
    · rw [if_pos hneg]
      have hq : clampSample s * 32768 < 0 := by nlinarith
      rw [if_pos hq]
      constructor
      · have hfl : Int.floor (-(clampSample s * 32768)) ≤ 32768 := by
          have hle : (-(clampSample s * 32768) : ℚ) ≤ 32768 := by nlinarith
          exact (Int.floor_le_floor hle).trans (by norm_num)
        omega
      · have hfl : 0 ≤ Int.floor (-(clampSample s * 32768)) :=
          Int.floor_nonneg.mpr (by nlinarith)
        omega
    · rw [if_neg hneg]
      push_neg at hneg
      have hq : ¬ clampSample s * 32767 < 0 := by nlinarith
      rw [if_neg hq]
      constructor
      · have hge : (0:ℤ) ≤ Int.floor (clampSample s * 32767) :=
          Int.floor_nonneg.mpr (by nlinarith)
        omega
      · have hle : Int.floor (clampSample s * 32767) ≤ 32767 := by
          have h1 : (clampSample s * 32767 : ℚ) ≤ 32767 := by nlinarith
          exact (Int.floor_le_floor h1).trans (by norm_num)
        omega
  · intro samples sampleRate i hi
    have hskip0 : (encodeWavPcm16 samples sampleRate).getD (44 + 2 * i) 0 =
        (wavData samples).getD (2 * i) 0 := by
      unfold encodeWavPcm16
      rw [List.getD_append_right _ _ _ _ (by rw [wavHeader_length]; omega),
        wavHeader_length]
      congr 1
      omega
    have hskip1 : (encodeWavPcm16 samples sampleRate).getD (44 + 2 * i + 1) 0 =
        (wavData samples).getD (2 * i + 1) 0 := by
      unfold encodeWavPcm16
      rw [List.getD_append_right _ _ _ _ (by rw [wavHeader_length]; omega),
        wavHeader_length]
      congr 1
      omega
    rw [hskip0, hskip1]
    exact wavData_getD samples i hi

/-- Witness for C6 at the one-sample buffer `[1/2]`, index 0. -/
theorem encodeWav_sample_conversion_witness :
    (encodeWavPcm16 [(1 : ℚ)/2] TARGET_SAMPLE_RATE).getD 44 0 =
      (i16le (pcm16OfSample (([(1 : ℚ)/2]).getD 0 0))).getD 0 0 ∧
    (encodeWavPcm16 [(1 : ℚ)/2] TARGET_SAMPLE_RATE).getD 45 0 =
      (i16le (pcm16OfSample (([(1 : ℚ)/2]).getD 0 0))).getD 1 0 :=
  ⟨(encodeWav_sample_conversion.2.2 [(1 : ℚ)/2] TARGET_SAMPLE_RATE 0 (by decide)).1,
    (encodeWav_sample_conversion.2.2 [(1 : ℚ)/2] TARGET_SAMPLE_RATE 0 (by decide)).2⟩

/-- Counterexample to C5 as stated: a one-sample mono input at native rate
48000 Hz.  The claimed target length `round(1 * 16000 / 48000) = round(1/3)`
is 0, but the code clamps the rendered length to at least 1
(`Math.max(1, ...)` at line 46), so `resampleTo16k` renders 1 sample, not 0. -/
theorem resample_length_counterexample :
    resampleTargetLength (List.length [(0 : ℚ)]) 48000 = 1 ∧
    round (((List.length [(0 : ℚ)] : ℚ) * (TARGET_SAMPLE_RATE : ℚ)) / 48000) = 0 ∧
    (resampleTo16k (fun k => List.replicate k 0) [(0 : ℚ)] 48000).length = 1 ∧
    resampleTargetLength (List.length [(0 : ℚ)]) 48000 ≠
      (round (((List.length [(0 : ℚ)] : ℚ) * (TARGET_SAMPLE_RATE : ℚ)) / 48000)).toNat := by
  have hround : round (((List.length [(0 : ℚ)] : ℚ) * (TARGET_SAMPLE_RATE : ℚ)) / 48000) =
      0 := by
    norm_num [TARGET_SAMPLE_RATE, round_eq]
  have htarget : resampleTargetLength (List.length [(0 : ℚ)]) 48000 = 1 := by
    unfold resampleTargetLength
    rw [hround]
    decide
  refine ⟨htarget, hround, ?_, ?_⟩
  · unfold resampleTo16k
    rw [if_neg (by norm_num [TARGET_SAMPLE_RATE]), htarget, List.length_replicate]
  · rw [htarget, hround]
    decide

/-- C5 amended: when the native rate equals the 16000 Hz target,
`resampleTo16k` returns its input unchanged; for every other rate the
rendered output has exactly `max(1, round(n * 16000 / r))` samples — the
rounded fixed-ratio length clamped below by one sample. -/
theorem resample_length_amended (render : ℕ → List ℚ) (input : List ℚ)
    (sampleRate : ℚ) (hrender : ∀ k, (render k).length = k) :
    resampleTo16k render input (TARGET_SAMPLE_RATE : ℚ) = input ∧
    (sampleRate ≠ (TARGET_SAMPLE_RATE : ℚ) →
      (resampleTo16k render input sampleRate).length =
        (max 1 (round (((input.length : ℚ) * (TARGET_SAMPLE_RATE : ℚ)) /
          sampleRate))).toNat) := by
  constructor
  · unfold resampleTo16k
    rw [if_pos rfl]
  · intro hne
    unfold resampleTo16k
    rw [if_neg hne, hrender]
    rfl

/-- Witness for C5 amended: a one-sample input at 8000 Hz under a renderer
that returns the configured number of zero samples. -/
theorem resample_length_amended_witness :
    resampleTo16k (fun k => List.replicate k 0) [(0 : ℚ)] (TARGET_SAMPLE_RATE : ℚ) =
      [(0 : ℚ)] ∧
    (resampleTo16k (fun k => List.replicate k 0) [(0 : ℚ)] 8000).length =
      (max 1 (round (((List.length [(0 : ℚ)] : ℚ) * (TARGET_SAMPLE_RATE : ℚ)) /
        8000))).toNat :=
  ⟨(resample_length_amended (fun k => List.replicate k 0) [(0 : ℚ)] 8000
      (fun k => List.length_replicate k 0)).1,
    (resample_length_amended (fun k => List.replicate k 0) [(0 : ℚ)] 8000
      (fun k => List.length_replicate k 0)).2
      (by norm_num [TARGET_SAMPLE_RATE])⟩
